import Mathlib

/-!
Verification of the connection-supervisor core of the `raverr` repository.

The definitions below are a shallow embedding of the Python source:

* `rave_api/websocket/protoo.py` — protoo wire messages (`ProtooRequest`,
  `ProtooNotification`, `ProtooResponse`) and the default correlation-id
  generator `int(time.time() * 1000) % 1000000`;
* `rave_api/websocket/client.py` — `RaveWebSocketClient`: the
  `response_channels` correlation table, `send_request`, the
  connected/terminated flags mutated by `connect`, `_listen`, `disconnect`
  and `reconnect`, and `_calculate_backoff`;
* `rave_api/bot/bot.py` — `RaveBot`: the kicked handler in
  `_handle_message_async`, membership-delta computation in
  `_handle_user_state_update`, auto-leave in `_handle_users_left` and
  `_leave_mesh`;
* `rave_api/bot/manager.py` — `BotManager`: the per-agent retry loop
  `_run_bot_with_retry`, the connection monitor `_monitor_bot_connection`,
  and the reconciliation pass `_sync_meshes`.

Machine integers are modelled as `Nat`/`Int`, Python floats occurring in the
backoff computations as `ℚ` (all constants involved — 1.5, 12.5, 0.5 — are
exactly representable), Python dicts with insertion-order-preserving
association lists, and Python sets as `Finset`.  Methods are modelled as
atomic state transformers (one cooperative task runs between suspension
points); the points where the code's behaviour depends on the environment
(what the peer or scheduler does during an `await`) are made explicit as
outcome parameters.
-/

/-! ## Protoo messages (`rave_api/websocket/protoo.py`) -/

/-- A JSON-like value, sufficient to model protoo payloads. -/
inductive PValue where
  | pBool : Bool → PValue
  | pInt : Int → PValue
  | pStr : String → PValue
  | pList : List PValue → PValue
  | pDict : List (String × PValue) → PValue

/-- Default correlation id of `ProtooRequest.__init__`:
`int(time.time() * 1000) % 1000000`, with `nowMs` the millisecond clock. -/
def defaultRequestId (nowMs : Nat) : Nat :=
  nowMs % 1000000

/-- The id a `ProtooRequest` receives: the explicit `request_id` when given,
otherwise `defaultRequestId` at the current millisecond timestamp. -/
def mkProtooRequestId (requestId : Option Nat) (nowMs : Nat) : Nat :=
  match requestId with
  | some i => i
  | none => defaultRequestId nowMs

/-- `ProtooRequest`: `self.request = True; self.method = ...; self.id = ...;
self.data = ...`. -/
structure ProtooRequestM where
  req : Bool
  method : String
  id : Nat
  data : List (String × PValue)

/-- `ProtooRequest.__init__` (the `request` attribute is always `True`). -/
def ProtooRequestM.make (method : String) (data : List (String × PValue))
    (requestId : Option Nat) (nowMs : Nat) : ProtooRequestM :=
  { req := true, method := method, id := mkProtooRequestId requestId nowMs, data := data }

/-- `ProtooRequest.to_dict`: insertion order `data, id, method, request`. -/
def ProtooRequestM.to_dict (r : ProtooRequestM) : List (String × PValue) :=
  [("data", PValue.pDict r.data), ("id", PValue.pInt r.id),
   ("method", PValue.pStr r.method), ("request", PValue.pBool r.req)]

/-- `ProtooNotification`: `self.notification = True; ...`. -/
structure ProtooNotificationM where
  notif : Bool
  method : String
  data : List (String × PValue)

/-- `ProtooNotification.to_dict`: insertion order `data, method, notification`. -/
def ProtooNotificationM.to_dict (n : ProtooNotificationM) : List (String × PValue) :=
  [("data", PValue.pDict n.data), ("method", PValue.pStr n.method),
   ("notification", PValue.pBool n.notif)]

/-- `ProtooResponse`: `self.response = True; self.id = ...; self.ok = ...;
self.data = ...`. -/
structure ProtooResponseM where
  resp : Bool
  id : Nat
  ok : Bool
  data : List (String × PValue)

/-- `ProtooResponse.to_dict`: insertion order `response, id, ok, data`. -/
def ProtooResponseM.to_dict (p : ProtooResponseM) : List (String × PValue) :=
  [("response", PValue.pBool p.resp), ("id", PValue.pInt p.id),
   ("ok", PValue.pBool p.ok), ("data", PValue.pDict p.data)]

/-! ## The correlation table (`self.response_channels`)

A Python dict keyed by integer request id.  We model it as an association
list; a waiter (an `asyncio.Queue`) is identified by a numeric tag. -/

/-- Dict assignment `self.response_channels[k] = v`: binds `k` to `v`,
replacing any previous binding of `k`. -/
def chInsert (tbl : List (Nat × Nat)) (k v : Nat) : List (Nat × Nat) :=
  (k, v) :: tbl.filter (fun p => p.1 ≠ k)

/-- Dict deletion `del self.response_channels[k]` (guarded in the source by
`if k in self.response_channels`, so deletion of an absent key is a no-op). -/
def chDelete (tbl : List (Nat × Nat)) (k : Nat) : List (Nat × Nat) :=
  tbl.filter (fun p => p.1 ≠ k)

/-- Dict lookup `self.response_channels[k]`. -/
def chLookup (tbl : List (Nat × Nat)) (k : Nat) : Option Nat :=
  (tbl.find? (fun p => p.1 == k)).map Prod.snd

/-! ## `send_request` (`rave_api/websocket/client.py`, lines 271–324)

The call's interaction with the environment after the waiter is registered
is one of five outcomes:
* `recheckClosed` — the re-check `if self.is_terminated or not
  self.is_connected or not self.websocket` right before the send fires
  (a concurrent disconnect happened);
* `sendRaisedClosed` — `await self.websocket.send` raises `ConnectionClosed`;
* `sendRaisedOther` — the send (or anything in the `try`) raises some other
  exception;
* `gotResponse r` — a response is put on the waiter within the 8 s window;
* `timedOut` — `asyncio.wait_for` raises `TimeoutError` after 8 s.
-/

inductive SendOutcome where
  | recheckClosed : SendOutcome
  | sendRaisedClosed : SendOutcome
  | sendRaisedOther : SendOutcome
  | gotResponse : Nat → SendOutcome
  | timedOut : SendOutcome

/-- `RaveWebSocketClient.send_request`, as a function of the connection flags,
the correlation table, the request's id, a tag `w` for the fresh waiter queue,
and the outcome.  Returns the Python return value (`response` data or `None`)
and the table after the call. -/
def sendRequest (terminated connected : Bool) (tbl : List (Nat × Nat))
    (reqId w : Nat) (o : SendOutcome) : Option Nat × List (Nat × Nat) :=
  if terminated || !connected then
    (none, tbl)
  else
    let tbl1 := chInsert tbl reqId w
    match o with
    | SendOutcome.recheckClosed => (none, chDelete tbl1 reqId)
    | SendOutcome.sendRaisedClosed => (none, chDelete tbl1 reqId)
    | SendOutcome.sendRaisedOther => (none, chDelete tbl1 reqId)
    | SendOutcome.gotResponse r => (some r, chDelete tbl1 reqId)
    | SendOutcome.timedOut => (none, chDelete tbl1 reqId)

theorem chDelete_chInsert (tbl : List (Nat × Nat)) (k v : Nat) :
    chDelete (chInsert tbl k v) k = chDelete tbl k := by
  simp [chDelete, chInsert, List.filter_filter]

theorem chDelete_eq_self_of_not_mem (tbl : List (Nat × Nat)) (k : Nat)
    (h : k ∉ tbl.map Prod.fst) : chDelete tbl k = tbl := by
  rw [chDelete, List.filter_eq_self]
  intro p hp
  simp only [ne_eq, decide_eq_true_eq]
  intro hk
  exact h (hk ▸ List.mem_map_of_mem Prod.fst hp)

/-! ## Connection flags (`RaveWebSocketClient`)

`is_connected` and `is_terminated` are mutated by `connect` (lines 149–243),
`_listen` (437–459), the `ConnectionClosed` handlers of `send_request` /
`send_notification`, `disconnect` (461–498) and `reconnect` (508–532).
Each method runs atomically here (one cooperative task between suspension
points); an event names one such method invocation together with its
environment-determined result. -/

structure ClientState where
  isConnected : Bool
  isTerminated : Bool
  retryCount : Nat
deriving DecidableEq, Repr

/-- Flag state right after `__init__`. -/
def initClient : ClientState :=
  { isConnected := false, isTerminated := false, retryCount := 0 }

inductive ClientEvent where
  | connectOk : ClientEvent
  | connectFail : ClientEvent
  | listenClosed : ClientEvent
  | listenError : ClientEvent
  | sendConnClosed : ClientEvent
  | disconnectEv : ClientEvent
  | reconnectOk : ClientEvent
  | reconnectFail : ClientEvent

/-- One method invocation on the connection flags.

* `connectOk` / `connectFail`: `connect` — early-returns when already
  connected or terminated; on success sets `is_connected = True` and resets
  `retry_count`; on exception sets `is_connected = False`.
* `listenClosed` / `listenError`: the `_listen` loop ends — sets
  `is_connected = False` unless already terminated.
* `sendConnClosed`: a send raises `ConnectionClosed` — sets
  `is_connected = False` unconditionally.
* `disconnectEv`: `disconnect` — no-op once terminated; otherwise clears
  `is_connected` and latches `is_terminated`.
* `reconnectOk` / `reconnectFail`: `reconnect` — no-op when terminated or
  out of retries; otherwise bumps `retry_count` and calls `connect`. -/
def clientStep (maxRetries : Nat) (c : ClientState) : ClientEvent → ClientState
  | ClientEvent.connectOk =>
      if c.isConnected then c
      else if c.isTerminated then c
      else { c with isConnected := true, retryCount := 0 }
  | ClientEvent.connectFail =>
      if c.isConnected then c
      else if c.isTerminated then c
      else { c with isConnected := false }
  | ClientEvent.listenClosed =>
      if c.isTerminated then c else { c with isConnected := false }
  | ClientEvent.listenError =>
      if c.isTerminated then c else { c with isConnected := false }
  | ClientEvent.sendConnClosed => { c with isConnected := false }
  | ClientEvent.disconnectEv =>
      if c.isTerminated then c
      else { c with isConnected := false, isTerminated := true }
  | ClientEvent.reconnectOk =>
      if c.isTerminated then c
      else if maxRetries ≤ c.retryCount then c
      else
        let c1 := { c with retryCount := c.retryCount + 1 }
        if c1.isConnected then c1
        else if c1.isTerminated then c1
        else { c1 with isConnected := true, retryCount := 0 }
  | ClientEvent.reconnectFail =>
      if c.isTerminated then c
      else if maxRetries ≤ c.retryCount then c
      else
        let c1 := { c with retryCount := c.retryCount + 1 }
        if c1.isConnected then c1
        else if c1.isTerminated then c1
        else { c1 with isConnected := false }

/-- Whether a call to `reconnect` in state `c` reaches `await self.connect()`
at all: `reconnect` returns without any attempt when `is_terminated` is set
or the retry budget is exhausted (lines 510–516). -/
def reconnectAttempted (maxRetries : Nat) (c : ClientState) : Bool :=
  if c.isTerminated then false
  else if maxRetries ≤ c.retryCount then false
  else true

/-! ## `disconnect` with its teardown effects (lines 461–498)

`disconnect` runs under `self._disconnect_lock`, so two calls — concurrent
ones included — execute in sequence; we therefore model a call as an atomic
function.  The resources it tears down are the ping task, the listen task
and the socket; `closeRaises` says whether `self.websocket.close` raises
(`ConnectionClosed` and any other exception are both swallowed, lines
490–494). -/

structure ConnRes where
  hasPing : Bool
  hasListen : Bool
  hasWebsocket : Bool
deriving DecidableEq, Repr

structure ClientFull where
  flags : ClientState
  res : ConnRes
deriving DecidableEq, Repr

inductive Teardown where
  | cancelPing : Teardown
  | cancelListen : Teardown
  | closeSocket : Teardown
deriving DecidableEq, Repr

/-- `RaveWebSocketClient.disconnect`: `.ok` means the call returned without
raising; the list collects the teardown steps performed. -/
def disconnectFull (closeRaises : Bool) (s : ClientFull) :
    Except String (ClientFull × List Teardown) :=
  if s.flags.isTerminated then
    Except.ok (s, [])
  else
    let flags := { s.flags with isConnected := false, isTerminated := true }
    let effs :=
      (if s.res.hasPing then [Teardown.cancelPing] else []) ++
      (if s.res.hasListen then [Teardown.cancelListen] else []) ++
      (if s.res.hasWebsocket then [Teardown.closeSocket] else [])
    -- `closeRaises` is swallowed by the `except` clauses; the `finally`
    -- clears `self.websocket` either way.
    let _ := closeRaises
    Except.ok ({ flags := flags, res := { s.res with hasWebsocket := false } }, effs)

/-! ## Backoff (`_calculate_backoff`, lines 500–506, and
`_run_bot_with_retry`, lines 312–372)

All float constants involved (1.5, 12.5, 0.5, the 2× and 5× factors) are
exactly representable, so `ℚ` models the computation exactly on the retry
counts that can occur. -/

/-- `RaveWebSocketClient._calculate_backoff`:
`min(self.initial_backoff * (1.5 ** self.retry_count), self.max_backoff)`.
It consults no failure classification. -/
def calculateBackoff (initialBackoff maxBackoff : ℚ) (retryCount : Nat) : ℚ :=
  min (initialBackoff * (3 / 2) ^ retryCount) maxBackoff

/-- Failure classification of the supervisor's exception handler
(`manager.py` lines 334–341): name-resolution, timeout/connection, other
exception; `clean` stands for the no-exception path (a normal disconnect,
lines 312–318). -/
inductive FailKind where
  | clean : FailKind
  | dns : FailKind
  | timeoutConn : FailKind
  | otherErr : FailKind
deriving DecidableEq, Repr

/-- Base backoff chosen by `_run_bot_with_retry`: `retry_initial_backoff * 5`
for name-resolution failures, `* 2` for timeout/connection failures,
unscaled otherwise (lines 360–367); the no-exception path uses the unscaled
base (line 315–318). -/
def supervisorBase (initial : ℚ) : FailKind → ℚ
  | FailKind.dns => initial * 5
  | FailKind.timeoutConn => initial * 2
  | FailKind.clean => initial
  | FailKind.otherErr => initial

/-- Supervisor-level backoff:
`min(base_backoff * (1.5 ** bot_info.retry_count), self.retry_max_backoff)`. -/
def supervisorBackoff (initial cap : ℚ) (k : FailKind) (retryCount : Nat) : ℚ :=
  min (supervisorBase initial k * (3 / 2) ^ retryCount) cap

/-! ## Membership tracking (`rave_api/bot/bot.py`)

`_handle_user_state_update` (lines 414–438) extracts the `user_id` of each
entry of the payload's `users` list (skipping entries without one), takes
set differences against `self.current_user_ids`, replaces the stored set,
and dispatches join/leave handling.  `_handle_users_left` (507–530) fires
per-user events and, when auto-leave is on and the stored set is exactly the
bot's own id, sets `left_because_last_user` and calls `_leave_mesh`
(532–549), which issues one leave-API call and one disconnect. -/

structure AgentState where
  currentUserIds : Finset Nat
  leftBecauseLast : Bool
  leaveApiCalls : Nat
  disconnectCalls : Nat
deriving DecidableEq

/-- Agent membership state right after `RaveBot.__init__`. -/
def initAgent : AgentState :=
  { currentUserIds := ∅, leftBecauseLast := false, leaveApiCalls := 0, disconnectCalls := 0 }

/-- `{user.get("user_id") for user in users if user.get("user_id") is not None}`. -/
def extractIds (users : List (Option Nat)) : Finset Nat :=
  users.foldr (fun o acc => match o with | some i => insert i acc | none => acc) ∅

/-- `RaveBot._leave_mesh`: one leave-API call, one `disconnect`. -/
def leaveMesh (s : AgentState) : AgentState :=
  { s with leaveApiCalls := s.leaveApiCalls + 1, disconnectCalls := s.disconnectCalls + 1 }

/-- `RaveBot._handle_users_left` on a non-empty list of left ids: fires
`on_user_left` events, then — `if self.auto_leave_when_last and
self.bot_user_id is not None` and the stored member set is exactly the bot's
own id — sets `left_because_last_user` and leaves. -/
def handleUsersLeft (autoLeave : Bool) (botUserId : Option Nat)
    (s : AgentState) : AgentState :=
  match botUserId with
  | none => s
  | some bid =>
      if autoLeave ∧ s.currentUserIds.card = 1 ∧ bid ∈ s.currentUserIds then
        leaveMesh { s with leftBecauseLast := true }
      else s

/-- `RaveBot._handle_user_state_update`: returns the updated agent state and
the derived `(joined_ids, left_ids)` of this update. -/
def handleUserStateUpdate (autoLeave : Bool) (botUserId : Option Nat)
    (users : List (Option Nat)) (s : AgentState) :
    AgentState × Finset Nat × Finset Nat :=
  let currentIds := extractIds users
  let joinedIds := currentIds \ s.currentUserIds
  let leftIds := s.currentUserIds \ currentIds
  let s1 := { s with currentUserIds := currentIds }
  let s2 := if leftIds ≠ ∅ then handleUsersLeft autoLeave botUserId s1 else s1
  (s2, joinedIds, leftIds)

/-! ## The kicked handler (`_handle_message_async`, lines 271–285) -/

structure KickState where
  kickedProcessed : Bool
  recordKicked : Bool
  onKickedEvents : Nat
  clientDisconnects : Nat
deriving DecidableEq, Repr

/-- Processing one inbound `kicked` notification: a one-shot via
`self._kicked_processed`; the first one fires `on_kicked` once and
disconnects with close code 4003.  Marking the supervisor record kicked
(`bot_info.kicked = True`, line 281) is guarded by
`if hasattr(self, 'manager') and self.manager` (line 277): `hasManager`
models that guard.  No statement in the repository ever assigns a `manager`
attribute on a `RaveBot` (`_create_bot_for_mesh` does not), so on every
execution of this program `hasManager` is `false` and the record's kicked
flag is never set. -/
def handleKicked (hasManager : Bool) (s : KickState) : KickState :=
  if s.kickedProcessed then s
  else
    { kickedProcessed := true,
      recordKicked := s.recordKicked || hasManager,
      onKickedEvents := s.onKickedEvents + 1,
      clientDisconnects := s.clientDisconnects + 1 }

/-! ## Supervisor record and retry loop (`rave_api/bot/manager.py`) -/

inductive MBotState where
  | initializing : MBotState
  | connecting : MBotState
  | connectedSt : MBotState
  | disconnected : MBotState
  | retrying : MBotState
  | failed : MBotState
  | stopped : MBotState
deriving DecidableEq, Repr

/-- The fields of `BotInfo` that `_run_bot_with_retry` and
`_monitor_bot_connection` read and write: lifecycle state, retry counter,
the `kicked` flag, the agent's `left_because_last_user` flag, and whether
the record is still in `self.bots`. -/
structure SupRecord where
  st : MBotState
  retryCount : Nat
  kicked : Bool
  leftLast : Bool
  inReg : Bool
deriving DecidableEq, Repr

/-- A record as `_start_bot` hands it to `_run_bot_with_retry`. -/
def freshRecord : SupRecord :=
  { st := MBotState.connecting, retryCount := 0, kicked := false,
    leftLast := false, inReg := true }

/-- How one `await bot_info.bot.run()` ended: `finished` — `run` returned
normally (the listen task ended on its own, e.g. the server closed the
socket); `cancelledErr` — `run` raised `CancelledError` (when the agent's
own `disconnect` — kicked handler or `_leave_mesh` — cancels the listen
task that `bot.run` awaits at bot.py line 595, awaiting it re-raises the
cancellation, which bot.run's `except Exception` does not catch);
`raisedErr` — `run` raised some other exception. -/
inductive RunResult where
  | finished : RunResult
  | cancelledErr : RunResult
  | raisedErr : RunResult
deriving DecidableEq, Repr

/-- One `bot.run()` invocation as the retry loop observes it: how it ended,
whether the kicked handler set `bot_info.kicked` during it (possible only
with a `manager` attribute wired up — never in this repository, see
`handleKicked`), and whether auto-leave set `left_because_last_user`. -/
structure RunEffect where
  res : RunResult
  setKicked : Bool
  setLeftLast : Bool
deriving DecidableEq, Repr

/-- The `if bot_info.retry_count >= self.max_retries` check that follows the
`while` loop (lines 385–387). -/
def afterLoop (maxRetries : Nat) (r : SupRecord) : SupRecord :=
  if maxRetries ≤ r.retryCount then { r with st := MBotState.failed } else r

/-- `BotManager._run_bot_with_retry`.  The effect list doubles as fuel: an
empty list is the shutdown event making the `while` guard false.  Returns
the final record, the number of `bot.run()` invocations made, and the
lifecycle states assigned along the way.

Per iteration (source lines 267–383): the guard requires
`retry_count < max_retries`; the bot is (re)created and `CONNECTING` set;
then, by how the run ended:
* `CancelledError` — `except asyncio.CancelledError: break` (lines
  331–332): the loop exits at once, skipping the `DISCONNECTED` assignment,
  the kicked/left-last check and the removal block entirely;
* normal return — `DISCONNECTED` is set (line 293), then kicked or
  last-member-left ⇒ `STOPPED` and removal from `self.bots` (296–301),
  exhausted budget ⇒ `FAILED`, otherwise `RETRYING`, counter bump, backoff
  sleep, old bot discarded, next iteration;
* other exception — `DISCONNECTED` is set (line 349) and the loop goes
  straight to the budget check and `RETRYING` (no kicked/left-last check
  exists on this path). -/
def runBotWithRetry (maxRetries : Nat) :
    List RunEffect → SupRecord → SupRecord × Nat × List MBotState
  | [], r => (afterLoop maxRetries r, 0, [])
  | e :: rest, r =>
    if maxRetries ≤ r.retryCount then (afterLoop maxRetries r, 0, [])
    else
      let r1 := { r with st := MBotState.connecting,
                         kicked := r.kicked || e.setKicked,
                         leftLast := r.leftLast || e.setLeftLast }
      match e.res with
      | RunResult.cancelledErr =>
          (afterLoop maxRetries r1, 1, [MBotState.connecting])
      | RunResult.finished =>
          let r2 := { r1 with st := MBotState.disconnected }
          if r2.kicked || r2.leftLast then
            (afterLoop maxRetries { r2 with st := MBotState.stopped, inReg := false }, 1,
             [MBotState.connecting, MBotState.disconnected, MBotState.stopped])
          else if maxRetries ≤ r2.retryCount then
            (afterLoop maxRetries { r2 with st := MBotState.failed }, 1,
             [MBotState.connecting, MBotState.disconnected, MBotState.failed])
          else
            let r3 := { r2 with st := MBotState.retrying, retryCount := r2.retryCount + 1 }
            let rec' := runBotWithRetry maxRetries rest r3
            (rec'.1, rec'.2.1 + 1,
             MBotState.connecting :: MBotState.disconnected :: MBotState.retrying :: rec'.2.2)
      | RunResult.raisedErr =>
          let r2 := { r1 with st := MBotState.disconnected }
          if maxRetries ≤ r2.retryCount then
            (afterLoop maxRetries { r2 with st := MBotState.failed }, 1,
             [MBotState.connecting, MBotState.disconnected, MBotState.failed])
          else
            let r3 := { r2 with st := MBotState.retrying, retryCount := r2.retryCount + 1 }
            let rec' := runBotWithRetry maxRetries rest r3
            (rec'.1, rec'.2.1 + 1,
             MBotState.connecting :: MBotState.disconnected :: MBotState.retrying :: rec'.2.2)

/-- One 2-second poll of `BotManager._monitor_bot_connection` (lines
226–252): on observing connected, record `CONNECTED` and reset the counter;
on a `CONNECTED → down` transition, record `DISCONNECTED`, and when the
agent left because it was the last member, mark `STOPPED` and remove the
record. -/
def monitorStep (clientConnected leftLast : Bool) (r : SupRecord) : SupRecord :=
  if clientConnected then
    if r.st ≠ MBotState.connectedSt then
      { r with st := MBotState.connectedSt, retryCount := 0 }
    else r
  else if r.st = MBotState.connectedSt then
    let r1 := { r with st := MBotState.disconnected }
    if leftLast then { r1 with st := MBotState.stopped, inReg := false } else r1
  else r

/-! ## Reconciliation (`BotManager._sync_meshes`, lines 432–478) -/

/-- `_sync_meshes`: `existing` are the keys of `self.bots`, `desired` the
mesh ids of the fetched list (a Python set — duplicates collapse).  Returns
(started sessions with the sleep taken right before each start, in
milliseconds), the stopped-and-removed ids, and the registry keys after the
pass.  The loop sleeps 500 ms before every start except the first
(`if idx > 0: await asyncio.sleep(0.5)`). -/
def syncMeshes (existing desired : List String) :
    List (String × Nat) × List String × List String :=
  let newIds := (desired.filter (fun m => m ∉ existing)).dedup
  let removed := existing.filter (fun m => m ∉ desired)
  let started := newIds.enum.map (fun p => (p.2, if p.1 = 0 then 0 else 500))
  let registry := existing.filter (fun m => m ∉ removed) ++ newIds
  (started, removed, registry)

/-! ## Helper lemmas -/

theorem not_mem_map_fst_chDelete (tbl : List (Nat × Nat)) (k : Nat) :
    k ∉ (chDelete tbl k).map Prod.fst := by
  intro hk
  rcases List.mem_map.mp hk with ⟨p, hp, hfst⟩
  rcases List.mem_filter.mp hp with ⟨_, hne⟩
  simp only [ne_eq, decide_eq_true_eq] at hne
  exact hne hfst

theorem clientStep_preserves_excl (maxR : Nat) (c : ClientState) (e : ClientEvent)
    (h : (c.isConnected && c.isTerminated) = false) :
    ((clientStep maxR c e).isConnected && (clientStep maxR c e).isTerminated) = false := by
  rcases c with ⟨con, term, rc⟩
  cases con <;> cases term <;> cases e <;>
    simp_all [clientStep] <;> split <;> simp_all

theorem foldl_clientStep_excl (maxR : Nat) (evs : List ClientEvent) (c : ClientState)
    (h : (c.isConnected && c.isTerminated) = false) :
    (((evs.foldl (clientStep maxR) c).isConnected) &&
     ((evs.foldl (clientStep maxR) c).isTerminated)) = false := by
  induction evs generalizing c with
  | nil => exact h
  | cons e rest ih => exact ih _ (clientStep_preserves_excl maxR c e h)

/-! ## Claim theorems -/

/-- C9: For every Request, Notification, and Response object, the encoded
form's fields appear exactly in the specified order: a Request as
`{data, id, method, request:true}`, a Notification as
`{data, method, notification:true}`, and a Response as
`{response:true, id, ok, data}`. -/
theorem c9_wire_field_order (r : ProtooRequestM) (n : ProtooNotificationM)
    (p : ProtooResponseM) :
    r.to_dict.map Prod.fst = ["data", "id", "method", "request"] ∧
    n.to_dict.map Prod.fst = ["data", "method", "notification"] ∧
    p.to_dict.map Prod.fst = ["response", "id", "ok", "data"] :=
  ⟨rfl, rfl, rfl⟩

/-- C10: A `ProtooRequest` constructed without an explicit `request_id`
receives the correlation id `int(time.time()*1000) % 1000000`; two requests
created at millisecond timestamps congruent modulo 1,000,000 receive equal
correlation ids (so the generator is not injective — witnessed by the
distinct timestamps 0 and 1,000,000), and registering the second request's
waiter under that table key replaces the first request's waiter. -/
theorem c10_correlation_id_collision :
    (∀ t1 t2 : Nat, t1 % 1000000 = t2 % 1000000 →
      mkProtooRequestId none t1 = mkProtooRequestId none t2) ∧
    ((0 : Nat) + 1 ≤ 1000000 ∧
      mkProtooRequestId none 0 = mkProtooRequestId none 1000000) ∧
    (∀ (tbl : List (Nat × Nat)) (i w1 w2 : Nat),
      chLookup (chInsert (chInsert tbl i w1) i w2) i = some w2) := by
  refine ⟨?_, ⟨by norm_num, by decide⟩, ?_⟩
  · intro t1 t2 h
    simp [mkProtooRequestId, defaultRequestId, h]
  · intro tbl i w1 w2
    simp [chInsert, chLookup, List.find?]

theorem c10_correlation_id_collision_witness :
    mkProtooRequestId none 5 = mkProtooRequestId none 2000005 ∧
    chLookup (chInsert (chInsert [(3, 0)] 7 1) 7 2) 7 = some 2 :=
  ⟨c10_correlation_id_collision.1 5 2000005 (by norm_num),
   c10_correlation_id_collision.2.2 [(3, 0)] 7 1 2⟩

/-- C2 (amended): `send_request` removes the waiter registered under the
request's correlation id on every exit path — after the call the id is
absent from the table whenever the call got past its not-connected check —
and, provided the id was not already a key of the table when the call began,
the table after the call equals the table before it (so, in particular, its
size is unchanged).  Without that proviso the registration replaces the
pre-existing waiter and the call shrinks the table by one
(`c2_counterexample`). -/
theorem c2_waiter_removed (terminated connected : Bool) (tbl : List (Nat × Nat))
    (reqId w : Nat) (o : SendOutcome) :
    (reqId ∉ tbl.map Prod.fst →
      (sendRequest terminated connected tbl reqId w o).2 = tbl) ∧
    (∀ (tbl' : List (Nat × Nat)) (k : Nat),
      ((sendRequest false true tbl' reqId w o).2.map Prod.fst).count reqId = 0 ∧
      ((sendRequest false true tbl' k w o).2.map Prod.fst).count k = 0) := by
  constructor
  · intro h
    cases terminated <;> cases connected <;>
      cases o <;>
        simp [sendRequest, chDelete_chInsert, chDelete_eq_self_of_not_mem tbl reqId h]
  · intro tbl' k
    constructor <;>
      · cases o <;>
          simp [sendRequest, chDelete_chInsert] <;>
          exact List.count_eq_zero.mpr (not_mem_map_fst_chDelete _ _)

theorem c2_waiter_removed_witness :
    (sendRequest false true [(3, 9)] 5 1 SendOutcome.timedOut).2 = [(3, 9)] ∧
    ((sendRequest false true [(5, 0)] 5 1 SendOutcome.timedOut).2.map Prod.fst).count 5 = 0 :=
  ⟨(c2_waiter_removed false true [(3, 9)] 5 1 SendOutcome.timedOut).1 (by decide),
   ((c2_waiter_removed false true [(3, 9)] 5 1 SendOutcome.timedOut).2 [(5, 0)] 5).2⟩

/-- C2, counterexample to the claim as stated: when the correlation id is
already a key of the table (here the pending id 5), a `send_request` call
that times out returns with the table one entry smaller than before the
call, not of equal size: the pre-call table has one entry, the post-call
table none. -/
theorem c2_counterexample :
    sendRequest false true [(5, 0)] 5 1 SendOutcome.timedOut = (none, []) ∧
    ([(5, 0)] : List (Nat × Nat)).length =
      (sendRequest false true [(5, 0)] 5 1 SendOutcome.timedOut).2.length + 1 := by
  constructor <;> decide

/-- C8: `disconnect` is idempotent: a first call returns without raising
(close-time exceptions are swallowed) and performs the teardown; a second
call — concurrent calls being serialized by `self._disconnect_lock` —
observes the terminated latch, performs no teardown effect, leaves the state
unchanged, and returns without raising. -/
theorem c8_disconnect_idempotent (b1 b2 : Bool) (s : ClientFull) :
    ∃ s1 effs, disconnectFull b1 s = Except.ok (s1, effs) ∧
      disconnectFull b2 s1 = Except.ok (s1, []) ∧
      s1.flags.isTerminated = true := by
  by_cases h : s.flags.isTerminated
  · exact ⟨s, [], by simp [disconnectFull, h], by simp [disconnectFull, h], h⟩
  · refine ⟨⟨⟨false, true, s.flags.retryCount⟩,
      ⟨s.res.hasPing, s.res.hasListen, false⟩⟩,
      (if s.res.hasPing then [Teardown.cancelPing] else []) ++
      ((if s.res.hasListen then [Teardown.cancelListen] else []) ++
       (if s.res.hasWebsocket then [Teardown.closeSocket] else [])),
      ?_, ?_, rfl⟩
    · simp [disconnectFull, h]
    · simp [disconnectFull]

/-- C4: in the atomic-operation model of a Transport Connection (each
flag-mutating method of `RaveWebSocketClient` runs between suspension
points), along every event trace from the initial state the `is_connected`
and `is_terminated` flags are never both true, and any step taken from a
state with `is_terminated` set leaves it set (one-way latch). -/
theorem c4_connected_terminated_exclusive :
    (∀ (maxR : Nat) (evs : List ClientEvent),
      (((evs.foldl (clientStep maxR) initClient).isConnected) &&
       ((evs.foldl (clientStep maxR) initClient).isTerminated)) = false) ∧
    (∀ (maxR rc : Nat) (b : Bool) (e : ClientEvent),
      (clientStep maxR { isConnected := b, isTerminated := true, retryCount := rc }
        e).isTerminated = true) := by
  constructor
  · intro maxR evs
    exact foldl_clientStep_excl maxR evs initClient rfl
  · intro maxR rc b e
    cases b <;> cases e <;> simp [clientStep]

theorem handleUsersLeft_currentUserIds (a : Bool) (b : Option Nat) (s : AgentState) :
    (handleUsersLeft a b s).currentUserIds = s.currentUserIds := by
  cases b with
  | none => rfl
  | some bid =>
      simp only [handleUsersLeft]
      split
      · rfl
      · rfl

/-- C5: for every membership state update, the derived joined-id set equals
the new snapshot minus the previous snapshot, the derived left-id set equals
the previous snapshot minus the new one, the stored member set is replaced
by the new snapshot afterward, and no id appears in both the joined and left
sets of the same update.  (Quantifying over the previous stored set covers
every state reachable along any sequence of updates.) -/
theorem c5_membership_delta (autoLeave : Bool) (botId : Option Nat)
    (users : List (Option Nat)) (s : AgentState) :
    (handleUserStateUpdate autoLeave botId users s).2.1 =
      extractIds users \ s.currentUserIds ∧
    (handleUserStateUpdate autoLeave botId users s).2.2 =
      s.currentUserIds \ extractIds users ∧
    (handleUserStateUpdate autoLeave botId users s).1.currentUserIds =
      extractIds users ∧
    (handleUserStateUpdate autoLeave botId users s).2.1 ∩
      (handleUserStateUpdate autoLeave botId users s).2.2 = ∅ := by
  refine ⟨rfl, rfl, ?_, ?_⟩
  · simp only [handleUserStateUpdate]
    split
    · exact handleUsersLeft_currentUserIds _ _ _
    · rfl
  · apply Finset.eq_empty_iff_forall_not_mem.mpr
    intro x hx
    rw [Finset.mem_inter] at hx
    have h1 : x ∈ extractIds users \ s.currentUserIds := hx.1
    have h2 : x ∈ s.currentUserIds \ extractIds users := hx.2
    rw [Finset.mem_sdiff] at h1 h2
    exact h1.2 h2.1

theorem getElem_syncMeshes_started (existing desired : List String) (i : Nat)
    (m : String) (d : Nat)
    (h : (syncMeshes existing desired).1[i]? = some (m, d)) :
    d = (if i = 0 then 0 else 500) := by
  simp only [syncMeshes, List.getElem?_map, List.getElem?_enum] at h
  cases hg : ((desired.filter (fun m => m ∉ existing)).dedup)[i]? with
  | none => rw [hg] at h; simp at h
  | some a => rw [hg] at h; simp at h; exact h.2.symm

/-- C6: one reconciliation pass with desired session set `{X, Y}` and active
set `{Y, Z}` starts exactly a new record for X (with no stagger sleep, X
being the first new start), stops and removes exactly Z, and leaves Y's
record in the registry untouched; in any pass, every newly started session
after the first is preceded by the fixed 500 ms stagger sleep (and the first
by none). -/
theorem c6_sync_reconciliation (existing desired : List String) (i : Nat)
    (m : String) (d : Nat)
    (h : (syncMeshes existing desired).1[i]? = some (m, d)) :
    d = (if i = 0 then 0 else 500) ∧
    (syncMeshes ["Y", "Z"] ["X", "Y"]).1 = [("X", 0)] ∧
    (syncMeshes ["Y", "Z"] ["X", "Y"]).2.1 = ["Z"] ∧
    (syncMeshes ["Y", "Z"] ["X", "Y"]).2.2 = ["Y", "X"] :=
  ⟨getElem_syncMeshes_started existing desired i m d h, by decide, by decide, by decide⟩

theorem c6_sync_reconciliation_witness :
    ((if (1 : Nat) = 0 then 0 else 500) = (500 : Nat)) ∧
    (syncMeshes ["Y", "Z"] ["X", "Y"]).1 = [("X", 0)] ∧
    (syncMeshes ["Y", "Z"] ["X", "Y"]).2.1 = ["Z"] ∧
    (syncMeshes ["Y", "Z"] ["X", "Y"]).2.2 = ["Y", "X"] := by
  have h := c6_sync_reconciliation ["A"] ["A", "B", "C"] 1 "C" 500 (by decide)
  exact ⟨h.1.symm, h.2.1, h.2.2.1, h.2.2.2⟩

theorem backoff_core_mono (b cap : ℚ) (r s : Nat) (hb : 0 ≤ b) (hrs : r ≤ s) :
    min (b * (3 / 2) ^ r) cap ≤ min (b * (3 / 2) ^ s) cap := by
  apply min_le_min _ le_rfl
  apply mul_le_mul_of_nonneg_left _ hb
  exact pow_le_pow_right₀ (by norm_num) hrs

theorem supervisorBase_nonneg (init : ℚ) (h : 0 ≤ init) (k : FailKind) :
    0 ≤ supervisorBase init k := by
  cases k <;> simp only [supervisorBase] <;> positivity

/-- C7 (amended): both retry policies compute
`backoff = min(base * 1.5^retry_count, cap)` and, for a nonnegative base,
both are monotonically non-decreasing in the retry count and never exceed
the cap; the Supervisor-level policy scales the base 5× for name-resolution
failures and 2× for timeout/connection failures (on its exception path),
while the Connection-level `_calculate_backoff` applies no failure-kind
scaling at all (`c7_counterexample`). -/
theorem c7_backoff_monotone_capped (init cap : ℚ) (k : FailKind) (r s : Nat)
    (h0 : 0 ≤ init) (hrs : r ≤ s) :
    calculateBackoff init cap r ≤ calculateBackoff init cap s ∧
    calculateBackoff init cap r ≤ cap ∧
    supervisorBackoff init cap k r ≤ supervisorBackoff init cap k s ∧
    supervisorBackoff init cap k r ≤ cap ∧
    supervisorBase init FailKind.dns = init * 5 ∧
    supervisorBase init FailKind.timeoutConn = init * 2 ∧
    calculateBackoff init cap r = min (init * (3 / 2) ^ r) cap ∧
    supervisorBackoff init cap k r = min (supervisorBase init k * (3 / 2) ^ r) cap :=
  ⟨backoff_core_mono init cap r s h0 hrs, min_le_right _ _,
   backoff_core_mono _ cap r s (supervisorBase_nonneg init h0 k) hrs, min_le_right _ _,
   rfl, rfl, rfl, rfl⟩

theorem c7_backoff_monotone_capped_witness :
    calculateBackoff 1 (25 / 2) 1 ≤ calculateBackoff 1 (25 / 2) 2 ∧
    calculateBackoff 1 (25 / 2) 1 ≤ 25 / 2 ∧
    supervisorBackoff 1 (25 / 2) FailKind.dns 1 ≤
      supervisorBackoff 1 (25 / 2) FailKind.dns 2 ∧
    supervisorBackoff 1 (25 / 2) FailKind.dns 1 ≤ 25 / 2 ∧
    supervisorBase 1 FailKind.dns = 1 * 5 ∧
    supervisorBase 1 FailKind.timeoutConn = 1 * 2 ∧
    calculateBackoff 1 (25 / 2) 1 = min (1 * (3 / 2) ^ 1) (25 / 2) ∧
    supervisorBackoff 1 (25 / 2) FailKind.dns 1 =
      min (supervisorBase 1 FailKind.dns * (3 / 2) ^ 1) (25 / 2) :=
  c7_backoff_monotone_capped 1 (25 / 2) FailKind.dns 1 2 (by norm_num) (by norm_num)

/-- C7, counterexample to the claim as stated: at retry count 1 with the
default base 1 s and cap 12.5 s, the Connection-level backoff is 1.5 s
whatever kind of failure preceded it (`_calculate_backoff` consults no
failure classification), strictly below the 7.5 s that the claimed 5×
name-resolution scaling prescribes — the Supervisor-level policy, which does
scale, yields that 7.5 s. -/
theorem c7_counterexample :
    calculateBackoff 1 (25 / 2) 1 = 3 / 2 ∧
    supervisorBackoff 1 (25 / 2) FailKind.dns 1 = 15 / 2 ∧
    (3 / 2 : ℚ) < 15 / 2 := by
  refine ⟨?_, ?_, by norm_num⟩
  · rw [calculateBackoff, min_eq_left (by norm_num)]
    norm_num
  · rw [supervisorBackoff, supervisorBase, min_eq_left (by norm_num)]
    norm_num



/-- C1 (code bug): processing a `kicked` notification is one-shot and
disconnects, but `bot_info.kicked = True` (bot.py line 281) sits behind
`hasattr(self, 'manager')` and no code in the repository ever assigns a
`manager` attribute on a `RaveBot`, so the supervisor record's kicked flag
is never set (first conjunct: the handler runs with `hasManager = false` and
leaves `recordKicked` false while firing the event and the disconnect).
Consequently, when the ensuing `bot.run()` returns normally,
`_run_bot_with_retry` finds `kicked = False` and transitions the record to
`RETRYING`, invoking a further run for the kicked session (second block of
conjuncts: two runs occur and `RETRYING` is entered, record left in the
registry); in the interleaving where the handler's disconnect cancels the
listen task that `bot.run` awaits, `run` raises `CancelledError` and the
loop breaks at manager.py lines 331–332 before the STOPPED/removal block,
leaving the record in the registry, never `STOPPED` (last block).  Either
way the claimed guarantee — STOPPED and never retried — fails. -/
theorem c1_kicked_not_terminal_bug :
    handleKicked false
      { kickedProcessed := false, recordKicked := false,
        onKickedEvents := 0, clientDisconnects := 0 } =
      { kickedProcessed := true, recordKicked := false,
        onKickedEvents := 1, clientDisconnects := 1 } ∧
    (∀ s : KickState,
      handleKicked false (handleKicked false s) = handleKicked false s) ∧
    (runBotWithRetry 10
      [⟨RunResult.finished, false, false⟩, ⟨RunResult.finished, false, false⟩]
      freshRecord).2.1 = 2 ∧
    (runBotWithRetry 10
      [⟨RunResult.finished, false, false⟩, ⟨RunResult.finished, false, false⟩]
      freshRecord).2.2 =
      [MBotState.connecting, MBotState.disconnected, MBotState.retrying,
       MBotState.connecting, MBotState.disconnected, MBotState.retrying] ∧
    (runBotWithRetry 10
      [⟨RunResult.finished, false, false⟩, ⟨RunResult.finished, false, false⟩]
      freshRecord).1 =
      { st := MBotState.retrying, retryCount := 2, kicked := false,
        leftLast := false, inReg := true } ∧
    (runBotWithRetry 10 [⟨RunResult.cancelledErr, false, false⟩]
      freshRecord).1 =
      { st := MBotState.connecting, retryCount := 0, kicked := false,
        leftLast := false, inReg := true } ∧
    (runBotWithRetry 10 [⟨RunResult.cancelledErr, false, false⟩]
      freshRecord).2.2 = [MBotState.connecting] := by
  refine ⟨by decide, ?_, by decide, by decide, by decide, by decide, by decide⟩
  intro s
  by_cases h : s.kickedProcessed <;> simp [handleKicked, h]

/-- C3 (code bug): the agent half behaves as claimed — the membership
sequence `{1, 2}` then `{1}` with bot id 1 and auto-leave on yields exactly
one leave-API call and one disconnect and sets `left_because_last_user`
(first three conjuncts) — but `_leave_mesh`'s disconnect cancels the listen
task that `bot.run` awaits, so `run` raises `CancelledError` and
`_run_bot_with_retry` breaks at manager.py lines 331–332 before its
left-last → STOPPED/removal block (lines 293–301), then immediately cancels
the monitor: the record stays in the registry in its pre-run state, never
`STOPPED` — though also never `RETRYING` (middle conjuncts: one run, states
entered are exactly `[CONNECTING]`, record still registered).  The
monitor's recovery block (lines 240–252, last conjunct) would produce
STOPPED and removal only if its 2-second poll happened to fire inside the
teardown window, which the loop's immediate cancellation does not
guarantee. -/
theorem c3_last_member_stale_record_bug :
    ((handleUserStateUpdate true (some 1) [some 1]
        (handleUserStateUpdate true (some 1) [some 1, some 2] initAgent).1).1.leaveApiCalls
      = 1) ∧
    ((handleUserStateUpdate true (some 1) [some 1]
        (handleUserStateUpdate true (some 1) [some 1, some 2] initAgent).1).1.disconnectCalls
      = 1) ∧
    ((handleUserStateUpdate true (some 1) [some 1]
        (handleUserStateUpdate true (some 1) [some 1, some 2] initAgent).1).1.leftBecauseLast
      = true) ∧
    (runBotWithRetry 10 [⟨RunResult.cancelledErr, false, true⟩]
      freshRecord).1 =
      { st := MBotState.connecting, retryCount := 0, kicked := false,
        leftLast := true, inReg := true } ∧
    (runBotWithRetry 10 [⟨RunResult.cancelledErr, false, true⟩]
      freshRecord).2.1 = 1 ∧
    (runBotWithRetry 10 [⟨RunResult.cancelledErr, false, true⟩]
      freshRecord).2.2 = [MBotState.connecting] ∧
    monitorStep false true
      { st := MBotState.connectedSt, retryCount := 0, kicked := false,
        leftLast := true, inReg := true } =
      { st := MBotState.stopped, retryCount := 0, kicked := false,
        leftLast := true, inReg := false } := by
  refine ⟨?_, ?_, ?_, ?_, ?_, ?_, ?_⟩ <;> decide
